import Mathlib

/-!
Verification development for the broadcast-box chat engine
(`internal/chat`: circular message buffer, chat rooms, multi-tier rate
limiter, manager workers, WebSocket dispatch).

Modelling conventions:
* `time.Time` is modelled as `Int` (seconds on an absolute scale);
  `time.Duration` constants become their value in seconds
  (`30 * time.Second = 30`, `5 * time.Minute = 300`, ...).
  `a.Before(b)` is `a < b`, `a.After(b)` is `a > b`, `now.Add(-w)` is
  `now - w`, `now.Sub(t)` is `now - t`.
* Go `int` is modelled as `Int` (no arithmetic here approaches 2^63).
* Go `string` is modelled as Lean `String`; `len(s)` is modelled as
  `s.length` (the Go byte count coincides with the character count on
  ASCII data, and every theorem below either quantifies uniformly over
  the same length function on both sides or uses ASCII inputs).
* The Go slice backing a `CircularBuffer` is modelled as a total
  function `Nat → ChatMessage` read only at indices `< maxSize`.
* Mutexes are erased: every modelled operation is an atomic state
  transformer, except in the lock-order model at the end of the file,
  which records the lock acquisitions a single goroutine performs.
-/

namespace BroadcastChat

/-- `ChatMessage` from `internal/chat/types.go` (timestamp as `Int`). -/
structure ChatMessage where
  ID : String
  StreamKey : String
  UserID : String
  Username : String
  Message : String
  Timestamp : Int
deriving DecidableEq, Inhabited, Repr

/-- `ChatError` from `internal/chat/manager.go`. -/
structure ChatError where
  Code : String
  Message : String
deriving DecidableEq, Repr

/-- The fields of `ChatConfig` (`internal/chat/config.go`) that the
rate limiter reads. -/
structure ChatConfig where
  MaxCharactersPerMessage : Int
deriving DecidableEq, Repr

/-- `DefaultConfig` for the fields modelled. -/
def DefaultConfig : ChatConfig :=
  { MaxCharactersPerMessage := 500 }

/-! ## Rate limiter (`internal/chat/ratelimit.go`) -/

/-- `UserRateRecord`: rate limiting data for one user.  The three
parallel slices keep their Go types (timestamps, contents, character
counts). -/
structure UserRateRecord where
  UserID : String
  Messages : List Int
  MessageContents : List String
  CharCountHistory : List Int
  TimeoutUntil : Int
  Violations : Int
  LastCleanup : Int
deriving DecidableEq, Repr

/-- The fresh record built by `getOrCreateRecord` at time `now`. -/
def freshRecord (userID : String) (now : Int) : UserRateRecord :=
  { UserID := userID
    Messages := []
    MessageContents := []
    CharCountHistory := []
    TimeoutUntil := 0
    Violations := 0
    LastCleanup := now }

/-- `recordMessage`: append timestamp, content and character count. -/
def UserRateRecord.recordMessage (r : UserRateRecord) (content : String)
    (charCount : Int) (now : Int) : UserRateRecord :=
  { r with
    Messages := r.Messages ++ [now]
    MessageContents := r.MessageContents ++ [content]
    CharCountHistory := r.CharCountHistory ++ [charCount] }

/-- `countMessagesInWindow`: number of timestamps strictly after
`now - window`. -/
def UserRateRecord.countMessagesInWindow (r : UserRateRecord)
    (window now : Int) : Nat :=
  (r.Messages.filter (fun t => t > now - window)).length

/-- `countCharsInWindow`: sum of `CharCountHistory[i]` over indices `i`
whose timestamp is after the cutoff and that are in bounds for the
character-count slice. -/
def UserRateRecord.countCharsInWindow (r : UserRateRecord)
    (window now : Int) : Int :=
  let cutoff := now - window
  (r.Messages.enum.map (fun p =>
    if p.2 > cutoff ∧ p.1 < r.CharCountHistory.length then
      r.CharCountHistory.getD p.1 0
    else 0)).sum

/-- Go `strings.TrimSpace` on the character list (Unicode white space;
the ASCII cases suffice for the data in this development). -/
def isSpaceChar (c : Char) : Bool :=
  c = ' ' ∨ c = '\t' ∨ c = '\n' ∨ c = '\r' ∨ c = '\x0b' ∨ c = '\x0c'

/-- `strings.ToLower (strings.TrimSpace s)`, the normalisation used by
duplicate detection, modelled on the character list. -/
def normalize (s : String) : List Char :=
  (((s.data.dropWhile isSpaceChar).reverse.dropWhile isSpaceChar).reverse).map
    Char.toLower

/-- The positional match count of `similarity`: compare the two strings
position by position up to the shorter length. -/
def matchCount (s1 s2 : List Char) : Nat :=
  ((s1.zip s2).filter (fun p => p.1 = p.2)).length

/-- `similarity(s1, s2) > 0.8`, as a Boolean.  The Go code computes
`float64(matches) / float64(len(longer))` and compares with `0.8`; for
the integer operands arising here the comparison is the exact rational
one, modelled as `10 * matches > 8 * len(longer)`. -/
def similarAbove08 (s1 s2 : List Char) : Bool :=
  if s1 = s2 then true
  else if s1.length = 0 ∨ s2.length = 0 then false
  else 10 * matchCount s1 s2 > 8 * max s1.length s2.length

/-- `isDuplicateSpam`: with at least 3 recorded contents, count among
the last (up to) 5 recorded contents those equal or `> 0.8`-similar to
the normalised incoming message; 3 or more is spam. -/
def UserRateRecord.isDuplicateSpam (r : UserRateRecord) (message : String) :
    Bool :=
  if r.MessageContents.length < 3 then false
  else
    let recentCount := min r.MessageContents.length 5
    let normalizedMessage := normalize message
    let recent := r.MessageContents.drop (r.MessageContents.length - recentCount)
    let duplicateCount :=
      (recent.filter (fun m =>
        let recentMsg := normalize m
        recentMsg = normalizedMessage ∨ similarAbove08 recentMsg normalizedMessage)).length
    duplicateCount ≥ 3

/-- `applyTimeout`: set `TimeoutUntil := now + duration`. -/
def UserRateRecord.applyTimeout (r : UserRateRecord) (duration now : Int) :
    UserRateRecord :=
  { r with TimeoutUntil := now + duration }

/-- `cleanup`: if more than a minute has passed since `LastCleanup`,
drop entries older than 5 minutes from the three parallel slices
(content/char entries are kept only when their index is in bounds,
mirroring the Go bounds guards), and stamp `LastCleanup`. -/
def UserRateRecord.cleanup (r : UserRateRecord) (now : Int) : UserRateRecord :=
  if now - r.LastCleanup < 60 then r
  else
    let cutoff := now - 300
    let kept := r.Messages.enum.filter (fun p => p.2 > cutoff)
    { r with
      Messages := kept.map (fun p => p.2)
      MessageContents := kept.filterMap (fun p => r.MessageContents.get? p.1)
      CharCountHistory := kept.filterMap (fun p => r.CharCountHistory.get? p.1)
      LastCleanup := now }

/-- `RateLimiter.CheckMessage`, acting on one user's record at time
`now`.  Returns the updated record and `none` for allow, `some err`
for deny — the Go `(bool, *ChatError)` pair with the redundant Boolean
dropped. -/
def checkMessage (cfg : ChatConfig) (record : UserRateRecord)
    (message : String) (now : Int) : UserRateRecord × Option ChatError :=
  -- Check if user is timed out
  if now < record.TimeoutUntil then
    (record, some ⟨"TIMEOUT", "You are timed out. Please wait before sending messages."⟩)
  else
    -- Clean old entries
    let record := record.cleanup now
    let messageLen : Int := message.length
    -- Check message length
    if messageLen > cfg.MaxCharactersPerMessage then
      (record, some ⟨"MESSAGE_TOO_LONG", "Message is too long. Maximum 500 characters."⟩)
    else
      -- Tier 1: Basic frequency check (5 messages per 10 seconds)
      let recentMessages := record.countMessagesInWindow 10 now
      if recentMessages ≥ 5 then
        ({ record.applyTimeout 30 now with Violations := record.Violations + 1 },
         some ⟨"RATE_LIMIT", "Slow down! (30 second cooldown)"⟩)
      else
        -- Tier 2: Spam detection (10+ messages in 30 seconds)
        let messagesIn30s := record.countMessagesInWindow 30 now
        if messagesIn30s ≥ 10 then
          ({ record.applyTimeout 120 now with Violations := record.Violations + 1 },
           some ⟨"SPAM_DETECTED", "Spam detected. (2 minute timeout)"⟩)
        else
          -- Tier 2.5: Heavy spam (20+ messages in 60 seconds)
          let messagesIn60s := record.countMessagesInWindow 60 now
          if messagesIn60s ≥ 20 then
            ({ record.applyTimeout 300 now with Violations := record.Violations + 2 },
             some ⟨"HEAVY_SPAM", "Heavy spam detected. (5 minute timeout)"⟩)
          else
            -- Tier 3: Character-based rate limiting
            if messageLen > 300 ∧ recentMessages ≥ 1 then
              (record, some ⟨"RATE_LIMIT_LONG_MESSAGE", "Large messages limited to 1 per 10 seconds."⟩)
            else if messageLen ≤ 300 ∧ messageLen > 100 ∧ recentMessages ≥ 3 then
              (record, some ⟨"RATE_LIMIT_MEDIUM_MESSAGE", "Medium messages limited to 3 per 10 seconds."⟩)
            else
              -- Tier 4: Duplicate/similar message detection
              if record.isDuplicateSpam message then
                ({ record.applyTimeout 300 now with Violations := record.Violations + 1 },
                 some ⟨"DUPLICATE_SPAM", "Stop sending the same message repeatedly. (5 minute timeout)"⟩)
              else
                -- Tier 5: Heavy spam with long messages
                let charsIn5Min := record.countCharsInWindow 300 now
                if messageLen ≥ 400 ∧ charsIn5Min > 2000 then
                  ({ record.applyTimeout 600 now with Violations := record.Violations + 2 },
                   some ⟨"HEAVY_TEXT_SPAM", "Too much text too quickly. (10 minute timeout)"⟩)
                else
                  -- Escalating penalties for repeat offenders
                  if record.Violations ≥ 5 then
                    (record.applyTimeout 1800 now,
                     some ⟨"REPEAT_OFFENDER", "Multiple violations. (30 minute timeout)"⟩)
                  else if record.Violations ≥ 4 then
                    (record.applyTimeout 600 now,
                     some ⟨"REPEAT_OFFENDER", "Multiple violations. (10 minute timeout)"⟩)
                  else if record.Violations ≥ 3 then
                    (record.applyTimeout 300 now,
                     some ⟨"REPEAT_OFFENDER", "Multiple violations. (5 minute timeout)"⟩)
                  else
                    -- Message is allowed - record it
                    (record.recordMessage message messageLen now, none)

/-- `RateLimiter.performCleanup`: delete the records whose message
list is empty or whose last recorded message is older than 30 minutes.
The map `userRecords` is modelled as an association list; the Go
collect-then-delete loop is deletion-order independent and equals this
filter. -/
def performCleanup (now : Int)
    (userRecords : List (String × UserRateRecord)) :
    List (String × UserRateRecord) :=
  userRecords.filter (fun p =>
    ¬ (p.2.Messages.length = 0 ∨
       (p.2.Messages.length > 0 ∧ now - p.2.Messages.getLastD 0 > 1800)))

/-! ## Circular buffer (`internal/chat/types.go`) -/

/-- `CircularBuffer`: fixed-size ring buffer.  The backing slice
`data` is modelled as a total function read at indices `< maxSize`. -/
structure CircularBuffer where
  data : Nat → ChatMessage
  maxSize : Nat
  head : Nat
  tail : Nat
  size : Nat

/-- `NewCircularBuffer maxSize`: zeroed slice, empty buffer. -/
def NewCircularBuffer (maxSize : Nat) : CircularBuffer :=
  { data := fun _ => default
    maxSize := maxSize
    head := 0
    tail := 0
    size := 0 }

/-- `CircularBuffer.Add`: write at `tail`, advance `tail`; grow `size`
if not yet full, otherwise advance `head` over the evicted eldest. -/
def CircularBuffer.Add (cb : CircularBuffer) (msg : ChatMessage) :
    CircularBuffer :=
  let data' := fun j => if j = cb.tail then msg else cb.data j
  let tail' := (cb.tail + 1) % cb.maxSize
  if cb.size < cb.maxSize then
    { cb with data := data', tail := tail', size := cb.size + 1 }
  else
    { cb with data := data', tail := tail', head := (cb.head + 1) % cb.maxSize }

/-- `CircularBuffer.GetAll`: the `size` messages starting at `head`,
oldest first. -/
def CircularBuffer.GetAll (cb : CircularBuffer) : List ChatMessage :=
  if cb.size = 0 then []
  else (List.range cb.size).map (fun i => cb.data ((cb.head + i) % cb.maxSize))

/-- `CircularBuffer.GetRecent n` (Go `n` is a signed `int`).  Returns
`none` where the Go code panics: when `n < 0` on a non-empty buffer,
`count` stays negative and `make([]ChatMessage, count)` aborts with
`makeslice: len out of range`.  Otherwise `some` of the produced
slice. -/
def CircularBuffer.GetRecent (cb : CircularBuffer) (n : Int) :
    Option (List ChatMessage) :=
  if cb.size = 0 then some []
  else
    let count : Int := if n > (cb.size : Int) then (cb.size : Int) else n
    if count < 0 then none
    else
      let c := count.toNat
      let startIdx := cb.size - c
      some ((List.range c).map
        (fun i => cb.data ((cb.head + startIdx + i) % cb.maxSize)))

/-- Well-formedness of a buffer state: positive capacity, `head` in
range, `size` within capacity, and `tail` the slot `size` past `head`.
Holds for `NewCircularBuffer C` with `C ≥ 1` and is preserved by
`Add`. -/
def CircularBuffer.WF (cb : CircularBuffer) : Prop :=
  0 < cb.maxSize ∧ cb.head < cb.maxSize ∧ cb.size ≤ cb.maxSize ∧
    cb.tail = (cb.head + cb.size) % cb.maxSize

/-- Folding `Add` over a list of messages, starting from a fresh
buffer of capacity `C`: the buffer after that sequence of appends. -/
def buildBuffer (C : Nat) (msgs : List ChatMessage) : CircularBuffer :=
  msgs.foldl CircularBuffer.Add (NewCircularBuffer C)

/-! ## Chat room (`internal/chat/types.go`) -/

/-- `ChatRoom` (roster and its lock omitted; the claims below concern
the message path). -/
structure ChatRoom where
  StreamKey : String
  Messages : CircularBuffer
  LastActivity : Int
  MessageCount : Int
  BytesUsed : Int

/-- The per-message byte estimate of `ChatRoom.AddMessage`:
field lengths plus 100 bytes of overhead. -/
def estimateSize (msg : ChatMessage) : Int :=
  (msg.ID.length : Int) + msg.StreamKey.length + msg.UserID.length +
    msg.Username.length + msg.Message.length + 100

/-- `ChatRoom.AddMessage`: append to the buffer, refresh
`LastActivity`, bump `MessageCount`, and add the byte estimate to
`BytesUsed`.  Total — it has no failure path. -/
def ChatRoom.AddMessage (cr : ChatRoom) (msg : ChatMessage) (now : Int) :
    ChatRoom :=
  { cr with
    Messages := cr.Messages.Add msg
    LastActivity := now
    MessageCount := cr.MessageCount + 1
    BytesUsed := cr.BytesUsed + estimateSize msg }

/-! ## WebSocket message dispatch (`internal/chat/websocket.go`) -/

/-- The outbound frame shape used by `handleChatMessage` (the
`Timestamp` field is omitted: it is `time.Now()` on every frame). -/
structure WSMessage where
  WSType : String
  Data : Option ChatMessage
  Err : Option String
deriving DecidableEq, Repr

/-- Where `handleChatMessage` delivers its outbound frame: to the
sender only (`c.Send <- ...`) or to the whole room
(`broadcastToRoom`). -/
inductive Delivery where
  | toSender (frame : WSMessage)
  | toRoom (frame : WSMessage)
deriving DecidableEq, Repr

/-- `Connection.handleChatMessage` for a joined session and a
non-empty message string (the guards before the rate-limit check), at
time `now`: run `CheckMessage`; on deny, send a `rate_limit` frame
carrying the error message to the sender only and stop; on allow,
add the message (`Manager.AddMessage` never returns an error) and
broadcast a `message` frame to the room. -/
def handleChatMessage (cfg : ChatConfig) (record : UserRateRecord)
    (streamKey userID username message : String) (msgID : String)
    (now : Int) : UserRateRecord × Delivery :=
  match checkMessage cfg record message now with
  | (record', some rateLimitErr) =>
      (record', .toSender { WSType := "rate_limit", Data := none,
                            Err := some rateLimitErr.Message })
  | (record', none) =>
      let chatMsg : ChatMessage :=
        { ID := msgID, StreamKey := streamKey, UserID := userID,
          Username := username, Message := message, Timestamp := now }
      (record', .toRoom { WSType := "message", Data := some chatMsg,
                          Err := none })

/-! ## Lock-order model of the monitor worker (`internal/chat/manager.go`)

`Manager.updateMemoryStats` and `Manager.performEmergencyCleanup`
both operate on the single `roomsMux` reader–writer lock.  The model
records, in program order, the operations one monitor-worker tick
performs on that lock. -/

/-- An operation on `Manager.roomsMux` performed by the monitor
goroutine. -/
inductive LockOp where
  | acquireShared
  | releaseShared
  | acquireExclusive
  | releaseExclusive
deriving DecidableEq, Repr

/-- `Manager.performEmergencyCleanup`: `roomsMux.Lock()`, evict with
10-minute retention in every room, deferred `roomsMux.Unlock()`. -/
def performEmergencyCleanupOps : List LockOp :=
  [.acquireExclusive, .releaseExclusive]

/-- `Manager.updateMemoryStats`: `roomsMux.RLock()` with a deferred
`roomsMux.RUnlock()` that runs at function return; in between, if the
tracker is critical, `performEmergencyCleanup` is invoked (if merely
near the limit, only a warning is logged). -/
def updateMemoryStatsOps (critical : Bool) : List LockOp :=
  [.acquireShared] ++ (if critical then performEmergencyCleanupOps else [])
    ++ [.releaseShared]

/-- Number of shared holds of `roomsMux` this goroutine has open after
executing a prefix of its operations. -/
def sharedDepth (ops : List LockOp) : Nat :=
  ops.foldl (fun d op =>
    match op with
    | .acquireShared => d + 1
    | .releaseShared => d - 1
    | _ => d) 0

/-- The trace attempts to acquire the lock exclusively at a point
where the same goroutine still holds it shared — with Go's
`sync.RWMutex` this blocks forever (self-deadlock). -/
def acquiresExclusiveWhileShared (ops : List LockOp) : Prop :=
  ∃ i : Fin ops.length,
    ops.get i = .acquireExclusive ∧ 0 < sharedDepth (ops.take i)

instance (ops : List LockOp) : Decidable (acquiresExclusiveWhileShared ops) := by
  unfold acquiresExclusiveWhileShared
  infer_instance

/-- The shape the spec prescribes for a critical tick: the shared lock
is released before the exclusive acquisition. -/
def releasesSharedBeforeExclusive (ops : List LockOp) : Prop :=
  ∀ i : Fin ops.length,
    ops.get i = .acquireExclusive → sharedDepth (ops.take i) = 0

instance (ops : List LockOp) : Decidable (releasesSharedBeforeExclusive ops) := by
  unfold releasesSharedBeforeExclusive
  infer_instance

/-! ## Spec-side view of the rate limiter (§4.4 of the specification)

The specification presents the limiter as a first-match table of
tiers.  The definitions below transcribe that table: a tier order, a
trigger per tier, and the consequence (deny code, timeout duration,
violation delta) per tier.  They are written from the spec's words, to
be compared with `checkMessage` above, which is written from the
code. -/

/-- The deny tiers of §4.4 after the T0 hard-timeout check (T0 is
handled before the table is consulted; `Allow` is the fallback). -/
inductive Tier where
  | t1 | t2a | t2b | t2c | t3long | t3med | t4 | t5 | esc
deriving DecidableEq, Repr

/-- §4.4's authoritative tier order. -/
def tierOrder : List Tier :=
  [.t1, .t2a, .t2b, .t2c, .t3long, .t3med, .t4, .t5, .esc]

/-- The trigger column of §4.4, evaluated on the post-cleanup record. -/
def tierTrigger (cfg : ChatConfig) (r : UserRateRecord) (message : String)
    (now : Int) : Tier → Bool
  | .t1 => decide ((message.length : Int) > cfg.MaxCharactersPerMessage)
  | .t2a => decide (r.countMessagesInWindow 10 now ≥ 5)
  | .t2b => decide (r.countMessagesInWindow 30 now ≥ 10)
  | .t2c => decide (r.countMessagesInWindow 60 now ≥ 20)
  | .t3long => decide ((message.length : Int) > 300 ∧
      r.countMessagesInWindow 10 now ≥ 1)
  | .t3med => decide ((message.length : Int) > 100 ∧
      r.countMessagesInWindow 10 now ≥ 3)
  | .t4 => r.isDuplicateSpam message
  | .t5 => decide ((message.length : Int) ≥ 400 ∧
      r.countCharsInWindow 300 now > 2000)
  | .esc => decide (r.Violations ≥ 3)

/-- The escalation rows of §4.4, first match among `≥5`, `≥4`, `≥3`. -/
def escalationDuration (v : Int) : Int :=
  if v ≥ 5 then 1800 else if v ≥ 4 then 600 else 300

/-- The deny code column of §4.4. -/
def tierCode : Tier → String
  | .t1 => "MESSAGE_TOO_LONG"
  | .t2a => "RATE_LIMIT"
  | .t2b => "SPAM_DETECTED"
  | .t2c => "HEAVY_SPAM"
  | .t3long => "RATE_LIMIT_LONG_MESSAGE"
  | .t3med => "RATE_LIMIT_MEDIUM_MESSAGE"
  | .t4 => "DUPLICATE_SPAM"
  | .t5 => "HEAVY_TEXT_SPAM"
  | .esc => "REPEAT_OFFENDER"

/-- The timeout column of §4.4 (seconds; `none` = no timeout set). -/
def tierTimeoutDuration (r : UserRateRecord) : Tier → Option Int
  | .t1 => none
  | .t2a => some 30
  | .t2b => some 120
  | .t2c => some 300
  | .t3long => none
  | .t3med => none
  | .t4 => some 300
  | .t5 => some 600
  | .esc => some (escalationDuration r.Violations)

/-- The violations-delta column of §4.4. -/
def tierViolationDelta : Tier → Int
  | .t2a => 1
  | .t2b => 1
  | .t2c => 2
  | .t4 => 1
  | .t5 => 2
  | _ => 0

/-- Apply the consequence of tier `t` to record `r`: set the tier's
timeout (if any) and add its violation delta. -/
def applyTierOutcome (t : Tier) (r : UserRateRecord) (now : Int) :
    UserRateRecord :=
  let r1 := match tierTimeoutDuration r t with
    | some d => r.applyTimeout d now
    | none => r
  { r1 with Violations := r1.Violations + tierViolationDelta t }

/-- §4.4 as a whole: T0 first, then the lazy self-cleanup, then the
first tier of `tierOrder` whose trigger holds (its consequence and
deny code), else allow and record. -/
def specCheck (cfg : ChatConfig) (r : UserRateRecord) (message : String)
    (now : Int) : UserRateRecord × Option String :=
  if now < r.TimeoutUntil then (r, some "TIMEOUT")
  else
    let r := r.cleanup now
    match tierOrder.find? (tierTrigger cfg r message now) with
    | some t => (applyTierOutcome t r now, some (tierCode t))
    | none => (r.recordMessage message message.length now, none)

/-! ## Concrete scenario states used by counterexamples and witnesses -/

/-- C4 scenario: the record of user `"u"` created at its first message
(time 0). -/
def c4Rec0 : UserRateRecord := freshRecord "u" 0

/-- C4 scenario: the record after the first check of `"spam"` at `t = 0`. -/
def c4Rec1 : UserRateRecord := (checkMessage DefaultConfig c4Rec0 "spam" 0).1

/-- C4 scenario: the record after the second check of `"spam"` at `t = 3`. -/
def c4Rec2 : UserRateRecord := (checkMessage DefaultConfig c4Rec1 "spam" 3).1

/-- C4 scenario: the record after the third check of `"spam"` at `t = 6`. -/
def c4Rec3 : UserRateRecord := (checkMessage DefaultConfig c4Rec2 "spam" 6).1

/-- A message already stored in the C3 scenario room. -/
def c3Msg0 : ChatMessage := ⟨"a", "s", "u", "Ann", "hello", 0⟩

/-- The message appended in the C3 scenario; its byte estimate is
exactly the 100-byte overhead. -/
def c3Msg : ChatMessage := ⟨"", "", "", "", "", 5⟩

/-- C3 scenario: a room whose capacity-1 buffer is full and whose
bytes-used is 600. -/
def c3Room : ChatRoom := ⟨"s", (NewCircularBuffer 1).Add c3Msg0, 0, 1, 600⟩

/-! ## Theorems -/

/-- **C1.** Every call of the rate limiter's check returns exactly one
outcome: `checkMessage` (transcribed from `RateLimiter.CheckMessage`)
agrees, on the resulting record and on the deny code, with the
first-match evaluation `specCheck` of the §4.4 tier table — the first
tier in the order T0, T1, T2a, T2b, T2c, T3-long, T3-med, T4, T5,
Escalation, Allow whose trigger holds is applied, with its deny code,
timeout duration and violation delta, and no other. -/
theorem checkMessage_first_match (cfg : ChatConfig) (r : UserRateRecord)
    (m : String) (now : Int) :
    (checkMessage cfg r m now).1 = (specCheck cfg r m now).1 ∧
    (checkMessage cfg r m now).2.map ChatError.Code =
      (specCheck cfg r m now).2 := by
  by_cases h0 : now < r.TimeoutUntil
  · simp [checkMessage, specCheck, h0]
  · simp only [checkMessage, specCheck, if_neg h0]
    generalize (r.cleanup now) = rc
    simp only [tierOrder]
    by_cases h1 : (m.length : Int) > cfg.MaxCharactersPerMessage
    · rw [List.find?_cons_of_pos _ (by simp [tierTrigger, h1])]
      simp [h1, applyTierOutcome, tierTimeoutDuration, tierViolationDelta,
        tierCode]
    · rw [List.find?_cons_of_neg _ (by simp [tierTrigger, h1])]
      simp only [if_neg h1]
      by_cases h2 : rc.countMessagesInWindow 10 now ≥ 5
      · rw [List.find?_cons_of_pos _ (by simp [tierTrigger, h2])]
        simp [h2, applyTierOutcome, tierTimeoutDuration, tierViolationDelta,
          tierCode, UserRateRecord.applyTimeout]
      · rw [List.find?_cons_of_neg _ (by simp [tierTrigger, h2])]
        simp only [if_neg h2]
        by_cases h3 : rc.countMessagesInWindow 30 now ≥ 10
        · rw [List.find?_cons_of_pos _ (by simp [tierTrigger, h3])]
          simp [h3, applyTierOutcome, tierTimeoutDuration,
            tierViolationDelta, tierCode, UserRateRecord.applyTimeout]
        · rw [List.find?_cons_of_neg _ (by simp [tierTrigger, h3])]
          simp only [if_neg h3]
          by_cases h4 : rc.countMessagesInWindow 60 now ≥ 20
          · rw [List.find?_cons_of_pos _ (by simp [tierTrigger, h4])]
            simp [h4, applyTierOutcome, tierTimeoutDuration,
              tierViolationDelta, tierCode, UserRateRecord.applyTimeout]
          · rw [List.find?_cons_of_neg _ (by simp [tierTrigger, h4])]
            simp only [if_neg h4]
            by_cases h5 : (m.length : Int) > 300 ∧
                rc.countMessagesInWindow 10 now ≥ 1
            · rw [List.find?_cons_of_pos _ (by simp [tierTrigger, h5.1, h5.2])]
              simp [h5, applyTierOutcome, tierTimeoutDuration,
                tierViolationDelta, tierCode]
            · rw [List.find?_cons_of_neg _ (by simp [tierTrigger]; omega)]
              simp only [if_neg h5]
              by_cases h6 : (m.length : Int) ≤ 300 ∧ (m.length : Int) > 100 ∧
                  rc.countMessagesInWindow 10 now ≥ 3
              · rw [List.find?_cons_of_pos _
                  (by simp [tierTrigger, h6.2.1, h6.2.2])]
                simp [h6, applyTierOutcome, tierTimeoutDuration,
                  tierViolationDelta, tierCode]
              · rw [List.find?_cons_of_neg _ (by simp [tierTrigger]; omega)]
                simp only [if_neg h6]
                by_cases h7 : rc.isDuplicateSpam m
                · rw [List.find?_cons_of_pos _ (by simp [tierTrigger, h7])]
                  simp [h7, applyTierOutcome, tierTimeoutDuration,
                    tierViolationDelta, tierCode,
                    UserRateRecord.applyTimeout]
                · rw [List.find?_cons_of_neg _ (by simp [tierTrigger, h7])]
                  simp only [if_neg h7]
                  by_cases h8 : (m.length : Int) ≥ 400 ∧
                      rc.countCharsInWindow 300 now > 2000
                  · rw [List.find?_cons_of_pos _
                      (by simp [tierTrigger, h8.1, h8.2])]
                    simp [h8, applyTierOutcome, tierTimeoutDuration,
                      tierViolationDelta, tierCode,
                      UserRateRecord.applyTimeout]
                  · rw [List.find?_cons_of_neg _ (by simp [tierTrigger]; omega)]
                    simp only [if_neg h8]
                    by_cases h9 : rc.Violations ≥ 3
                    · rw [List.find?_cons_of_pos _
                        (by simp [tierTrigger, h9])]
                      simp only [applyTierOutcome, tierTimeoutDuration,
                        tierViolationDelta, tierCode, escalationDuration,
                        UserRateRecord.applyTimeout]
                      by_cases h10 : rc.Violations ≥ 5
                      · simp [h10]
                      · by_cases h11 : rc.Violations ≥ 4
                        · simp [h10, h11]
                        · simp [h10, h11, h9]
                    · rw [List.find?_cons_of_neg _
                        (by simp [tierTrigger, h9])]
                      simp only [List.find?_nil, if_neg h9]
                      simp [show ¬ rc.Violations ≥ 5 by omega,
                        show ¬ rc.Violations ≥ 4 by omega]

/-- The lazy self-cleanup never changes the violation counter. -/
theorem cleanup_Violations (r : UserRateRecord) (now : Int) :
    (r.cleanup now).Violations = r.Violations := by
  unfold UserRateRecord.cleanup
  split <;> rfl

/-- The lazy self-cleanup never changes the timeout. -/
theorem cleanup_TimeoutUntil (r : UserRateRecord) (now : Int) :
    (r.cleanup now).TimeoutUntil = r.TimeoutUntil := by
  unfold UserRateRecord.cleanup
  split <;> rfl

/-- **C6.** If a check of user history `r` at time `now` returns a
deny whose resulting record carries a timeout ending at `T`, then a
check of any message at any time `t' < T` on that record is denied
with code `TIMEOUT`, and leaves the record unchanged. -/
theorem timeout_denies_until_expiry (cfg : ChatConfig)
    (r r₁ : UserRateRecord) (m m' : String) (now t' T : Int)
    (e : ChatError)
    (_hchk : checkMessage cfg r m now = (r₁, some e))
    (hT : r₁.TimeoutUntil = T) (ht : t' < T) :
    checkMessage cfg r₁ m' t' =
      (r₁, some ⟨"TIMEOUT",
        "You are timed out. Please wait before sending messages."⟩) := by
  have h : t' < r₁.TimeoutUntil := hT ▸ ht
  unfold checkMessage
  simp [h]

/-- Witness for C6: a burst deny (five messages inside 10 s) sets a
30-second timeout at `T = 36`; a check at `t' = 20 < 36` returns
`TIMEOUT`. -/
theorem timeout_denies_until_expiry_witness :
    checkMessage DefaultConfig
        ⟨"u", [1, 2, 3, 4, 5], ["a", "b", "c", "d", "e"],
          [1, 1, 1, 1, 1], 0, 0, 5⟩ "x" 6 =
      (⟨"u", [1, 2, 3, 4, 5], ["a", "b", "c", "d", "e"],
          [1, 1, 1, 1, 1], 36, 1, 5⟩,
        some ⟨"RATE_LIMIT", "Slow down! (30 second cooldown)"⟩) ∧
    checkMessage DefaultConfig
        ⟨"u", [1, 2, 3, 4, 5], ["a", "b", "c", "d", "e"],
          [1, 1, 1, 1, 1], 36, 1, 5⟩ "hello" 20 =
      (⟨"u", [1, 2, 3, 4, 5], ["a", "b", "c", "d", "e"],
          [1, 1, 1, 1, 1], 36, 1, 5⟩,
        some ⟨"TIMEOUT",
          "You are timed out. Please wait before sending messages."⟩) :=
  ⟨by decide, timeout_denies_until_expiry DefaultConfig
      ⟨"u", [1, 2, 3, 4, 5], ["a", "b", "c", "d", "e"],
        [1, 1, 1, 1, 1], 0, 0, 5⟩
      ⟨"u", [1, 2, 3, 4, 5], ["a", "b", "c", "d", "e"],
        [1, 1, 1, 1, 1], 36, 1, 5⟩ "x" "hello" 6 20 36
      ⟨"RATE_LIMIT", "Slow down! (30 second cooldown)"⟩
      (by decide) (by decide) (by decide)⟩

/-- **C10.** The violation counter of a per-user record never
decreases across a check (no tier, allow outcome, or self-cleanup
lowers it), and once it has reached 3 every check is denied — so no
message from that user is allowed again while the record exists. -/
theorem violations_monotone_lockout (cfg : ChatConfig)
    (r : UserRateRecord) (m : String) (now : Int) :
    r.Violations ≤ (checkMessage cfg r m now).1.Violations ∧
    (3 ≤ r.Violations → ((checkMessage cfg r m now).2).isSome = true) := by
  have hc := cleanup_Violations r now
  by_cases h0 : now < r.TimeoutUntil
  · simp [checkMessage, h0]
  · simp only [checkMessage, if_neg h0]
    rw [show r.cleanup now = r.cleanup now from rfl] at hc
    generalize hg : r.cleanup now = rc at hc ⊢
    by_cases h1 : (m.length : Int) > cfg.MaxCharactersPerMessage
    · simp only [if_pos h1]
      exact ⟨by omega, fun _ => rfl⟩
    · simp only [if_neg h1]
      by_cases h2 : rc.countMessagesInWindow 10 now ≥ 5
      · simp only [if_pos h2]
        refine ⟨?_, fun _ => rfl⟩
        omega
      · simp only [if_neg h2]
        by_cases h3 : rc.countMessagesInWindow 30 now ≥ 10
        · simp only [if_pos h3]
          refine ⟨?_, fun _ => rfl⟩
          omega
        · simp only [if_neg h3]
          by_cases h4 : rc.countMessagesInWindow 60 now ≥ 20
          · simp only [if_pos h4]
            refine ⟨?_, fun _ => rfl⟩
            omega
          · simp only [if_neg h4]
            by_cases h5 : (m.length : Int) > 300 ∧
                rc.countMessagesInWindow 10 now ≥ 1
            · simp only [if_pos h5]
              exact ⟨by omega, fun _ => rfl⟩
            · simp only [if_neg h5]
              by_cases h6 : (m.length : Int) ≤ 300 ∧ (m.length : Int) > 100 ∧
                  rc.countMessagesInWindow 10 now ≥ 3
              · simp only [if_pos h6]
                exact ⟨by omega, fun _ => rfl⟩
              · simp only [if_neg h6]
                by_cases h7 : rc.isDuplicateSpam m
                · simp only [if_pos h7]
                  refine ⟨?_, fun _ => rfl⟩
                  omega
                · simp only [if_neg h7]
                  by_cases h8 : (m.length : Int) ≥ 400 ∧
                      rc.countCharsInWindow 300 now > 2000
                  · simp only [if_pos h8]
                    refine ⟨?_, fun _ => rfl⟩
                    omega
                  · simp only [if_neg h8]
                    by_cases h9 : rc.Violations ≥ 5
                    · simp only [if_pos h9]
                      refine ⟨?_, fun _ => rfl⟩
                      first
                        | omega
                        | (simp only [UserRateRecord.applyTimeout]; omega)
                    · simp only [if_neg h9]
                      by_cases h10 : rc.Violations ≥ 4
                      · simp only [if_pos h10]
                        refine ⟨?_, fun _ => rfl⟩
                        first
                          | omega
                          | (simp only [UserRateRecord.applyTimeout]; omega)
                      · simp only [if_neg h10]
                        by_cases h11 : rc.Violations ≥ 3
                        · simp only [if_pos h11]
                          refine ⟨?_, fun _ => rfl⟩
                          first
                            | omega
                            | (simp only [UserRateRecord.applyTimeout]; omega)
                        · simp only [if_neg h11]
                          refine ⟨?_, fun hv => absurd hv (by omega)⟩
                          simp only [UserRateRecord.recordMessage]
                          omega

/-- Witness for C10: a record with 3 violations and no other active
tier is denied (by the escalation tier). -/
theorem violations_monotone_lockout_witness :
    (3 : Int) ≤ (⟨"u", [], [], [], 0, 3, 0⟩ : UserRateRecord).Violations ∧
    ((checkMessage DefaultConfig ⟨"u", [], [], [], 0, 3, 0⟩ "hi" 0).2).isSome
      = true :=
  ⟨by decide,
    (violations_monotone_lockout DefaultConfig ⟨"u", [], [], [], 0, 3, 0⟩
      "hi" 0).2 (by decide)⟩

/-- **C4 (counterexample).** In the duplicate-spam scenario — a fresh
user sends identical `"spam"` messages at t = 0, 3, 6 (paced more than
2 s apart, within one minute) — the *third* check also returns allow,
because `isDuplicateSpam` requires at least 3 previously recorded
contents.  The claim says the third check is denied `DUPLICATE_SPAM`. -/
theorem c4_third_spam_allowed :
    (checkMessage DefaultConfig c4Rec0 "spam" 0).2 = none ∧
    (checkMessage DefaultConfig c4Rec1 "spam" 3).2 = none ∧
    (checkMessage DefaultConfig c4Rec2 "spam" 6).2 = none := by
  decide

/-- **C4 (amended).** First three identical `"spam"` checks succeed;
the *fourth* (t = 9, still within the minute, paced > 2 s apart) is
denied `DUPLICATE_SPAM` and sets a 5-minute timeout (`9 + 300`). -/
theorem c4_fourth_spam_denied :
    (checkMessage DefaultConfig c4Rec0 "spam" 0).2 = none ∧
    (checkMessage DefaultConfig c4Rec1 "spam" 3).2 = none ∧
    (checkMessage DefaultConfig c4Rec2 "spam" 6).2 = none ∧
    (checkMessage DefaultConfig c4Rec3 "spam" 9).2 =
      some ⟨"DUPLICATE_SPAM",
        "Stop sending the same message repeatedly. (5 minute timeout)"⟩ ∧
    (checkMessage DefaultConfig c4Rec3 "spam" 9).1.TimeoutUntil = 9 + 300 := by
  decide

/-- **C5 (counterexample).** A deny of tier T0 (`TIMEOUT`, not the
burst tier T2a) is still delivered as a `rate_limit`-typed frame, not
as an `error` frame: `handleChatMessage` uses `rate_limit` for every
deny. -/
theorem c5_timeout_denial_is_rate_limit_frame :
    (checkMessage DefaultConfig ⟨"u", [], [], [], 100, 0, 0⟩ "hi" 50).2 =
      some ⟨"TIMEOUT",
        "You are timed out. Please wait before sending messages."⟩ ∧
    (handleChatMessage DefaultConfig ⟨"u", [], [], [], 100, 0, 0⟩
        "s" "u" "Ann" "hi" "id1" 50).2 =
      .toSender ⟨"rate_limit", none,
        some "You are timed out. Please wait before sending messages."⟩ := by
  decide

/-- **C5 (amended).** When a joined session's `message` frame is
denied by the rate limiter, the denial goes to the sender only and no
broadcast occurs; the denial frame has type `rate_limit` for *every*
deny tier, carrying the tier's human-readable message. -/
theorem c5_denial_to_sender_only (cfg : ChatConfig) (r r' : UserRateRecord)
    (streamKey userID username message msgID : String) (now : Int)
    (err : ChatError)
    (hchk : checkMessage cfg r message now = (r', some err)) :
    handleChatMessage cfg r streamKey userID username message msgID now =
      (r', .toSender ⟨"rate_limit", none, some err.Message⟩) := by
  simp [handleChatMessage, hchk]

/-- Witness for C5 (amended): the concrete timed-out deny. -/
theorem c5_denial_to_sender_only_witness :
    handleChatMessage DefaultConfig ⟨"u", [], [], [], 100, 0, 0⟩
        "s" "u" "Ann" "hi" "id1" 50 =
      (⟨"u", [], [], [], 100, 0, 0⟩,
        .toSender ⟨"rate_limit", none,
          some "You are timed out. Please wait before sending messages."⟩) :=
  c5_denial_to_sender_only DefaultConfig ⟨"u", [], [], [], 100, 0, 0⟩
    ⟨"u", [], [], [], 100, 0, 0⟩ "s" "u" "Ann" "hi" "id1" 50
    ⟨"TIMEOUT", "You are timed out. Please wait before sending messages."⟩
    (by decide)

/-- **C7 (counterexample).** The reaper also removes records that have
*no* recorded messages at all — here a record with an active timeout
(`TimeoutUntil = 100`) and violations, but an empty `Messages` slice,
is deleted at `now = 0` even though it has no last-recorded message
older than 30 minutes.  The claim says every such record is kept. -/
theorem c7_reaper_removes_empty_record :
    (⟨"u", [], [], [], 100, 2, 0⟩ : UserRateRecord).Messages = [] ∧
    performCleanup 0 [("u", ⟨"u", [], [], [], 100, 2, 0⟩)] = [] := by
  decide

/-- **C7 (amended).** A reaper run removes exactly the records that
have no recorded messages or whose last-recorded message is older than
30 minutes; every other record is kept, with its entire state (the
pair survives unchanged, so timeout-until and violations survive). -/
theorem c7_reaper_keeps_iff (now : Int)
    (recs : List (String × UserRateRecord)) (p : String × UserRateRecord) :
    p ∈ performCleanup now recs ↔
      p ∈ recs ∧ p.2.Messages ≠ [] ∧
        now - p.2.Messages.getLastD 0 ≤ 1800 := by
  unfold performCleanup
  simp only [List.mem_filter, decide_eq_true_eq, not_or, not_and, not_lt,
    List.length_eq_zero]
  constructor
  · rintro ⟨hm, hne, himp⟩
    exact ⟨hm, hne, himp (by
      cases hl : p.2.Messages with
      | nil => exact absurd hl hne
      | cons a l => simp [hl])⟩
  · rintro ⟨hm, hne, hle⟩
    exact ⟨hm, hne, fun _ => hle⟩

/-- **C9.** One monitor tick that finds the tracker critical performs,
on `roomsMux`, the operation sequence of `updateMemoryStats`: it
acquires the exclusive lock (inside `performEmergencyCleanup`) while
its own shared hold — whose deferred release only runs at function
return — is still open, and never releases the shared lock first.
With Go's `sync.RWMutex` this self-deadlocks; the spec instead
requires the shared lock to be released before the exclusive
acquisition. -/
theorem c9_emergency_eviction_inside_shared_lock :
    acquiresExclusiveWhileShared (updateMemoryStatsOps true) ∧
    ¬ releasesSharedBeforeExclusive (updateMemoryStatsOps true) := by
  decide

/-- **C8 (counterexample).** `GetRecent` with a negative `n` on a
non-empty buffer does not return the empty list: `count` stays
negative and `make([]ChatMessage, count)` panics (modelled as
`none`). -/
theorem c8_getRecent_negative_panics :
    ((NewCircularBuffer 1).Add c3Msg0).GetRecent (-1) = none ∧
    ((NewCircularBuffer 1).Add c3Msg0).GetRecent (-1) ≠ some [] := by
  decide

/-! ### Ring buffer lemmas -/

/-- `GetAll` without the redundant empty-buffer branch. -/
theorem getAll_eq (cb : CircularBuffer) :
    cb.GetAll = (List.range cb.size).map
      (fun i => cb.data ((cb.head + i) % cb.maxSize)) := by
  unfold CircularBuffer.GetAll
  split
  · next h => simp [h]
  · rfl

/-- Slots `(a + i) % n` for offsets below `n` are pairwise distinct. -/
theorem add_mod_inj {n a : Nat} (i j : Nat) (hi : i < n) (hj : j < n)
    (h : (a + i) % n = (a + j) % n) : i = j := by
  have h2 : i ≡ j [MOD n] := Nat.ModEq.add_left_cancel' a h
  rwa [Nat.ModEq, Nat.mod_eq_of_lt hi, Nat.mod_eq_of_lt hj] at h2

/-- `Add` preserves well-formedness. -/
theorem wf_add (cb : CircularBuffer) (m : ChatMessage) (h : cb.WF) :
    (cb.Add m).WF := by
  obtain ⟨hpos, hhead, hsize, htail⟩ := h
  unfold CircularBuffer.Add CircularBuffer.WF
  split
  · next hlt =>
    refine ⟨hpos, hhead, hlt, ?_⟩
    show (cb.tail + 1) % cb.maxSize
      = (cb.head + (cb.size + 1)) % cb.maxSize
    rw [htail, Nat.mod_add_mod, Nat.add_assoc]
  · next hnlt =>
    refine ⟨hpos, Nat.mod_lt _ hpos, hsize, ?_⟩
    show (cb.tail + 1) % cb.maxSize
      = ((cb.head + 1) % cb.maxSize + cb.size) % cb.maxSize
    rw [htail, Nat.mod_add_mod, Nat.mod_add_mod]
    congr 1
    omega

/-- Appending to a non-full well-formed buffer appends to the
snapshot. -/
theorem getAll_add_of_lt (cb : CircularBuffer) (m : ChatMessage)
    (h : cb.WF) (hlt : cb.size < cb.maxSize) :
    (cb.Add m).GetAll = cb.GetAll ++ [m] := by
  obtain ⟨hpos, hhead, hsize, htail⟩ := h
  rw [getAll_eq, getAll_eq]
  simp only [CircularBuffer.Add, if_pos hlt]
  rw [List.range_succ, List.map_append]
  congr 1
  · apply List.map_congr_left
    intro i hi
    have hi' : i < cb.size := List.mem_range.mp hi
    have hne : (cb.head + i) % cb.maxSize ≠ cb.tail := by
      rw [htail]
      intro hcontra
      have := add_mod_inj i cb.size (by omega) (by omega) hcontra
      omega
    simp [hne]
  · simp [htail]

/-- Dropping the first element of a map over `range (k + 1)` shifts
the index by one. -/
theorem map_range_drop_one {α : Type} (g : Nat → α) (k : Nat) :
    ((List.range (k + 1)).map g).drop 1
      = (List.range k).map (fun i => g (i + 1)) := by
  rw [List.range_succ_eq_map, List.map_cons, List.drop_one, List.tail_cons,
    List.map_map]
  rfl

/-- Appending to a full well-formed buffer drops the eldest and
appends to the snapshot. -/
theorem getAll_add_of_full (cb : CircularBuffer) (m : ChatMessage)
    (h : cb.WF) (hfull : cb.size = cb.maxSize) :
    (cb.Add m).GetAll = cb.GetAll.drop 1 ++ [m] := by
  obtain ⟨hpos, hhead, hsize, htail⟩ := h
  have hnlt : ¬ cb.size < cb.maxSize := by omega
  have hhead_mod : cb.head % cb.maxSize = cb.head := Nat.mod_eq_of_lt hhead
  have htail_eq : cb.tail = cb.head := by
    rw [htail, hfull, Nat.add_mod_right, hhead_mod]
  obtain ⟨k, hk⟩ : ∃ k, cb.size = k + 1 := ⟨cb.size - 1, by omega⟩
  have hkmax : k + 1 = cb.maxSize := by omega
  rw [getAll_eq, getAll_eq]
  simp only [CircularBuffer.Add, if_neg hnlt]
  rw [hk, map_range_drop_one, List.range_succ, List.map_append]
  congr 1
  · apply List.map_congr_left
    intro i hi
    have hi' : i < k := List.mem_range.mp hi
    have hidx : ((cb.head + 1) % cb.maxSize + i) % cb.maxSize
        = (cb.head + (1 + i)) % cb.maxSize := by
      rw [Nat.mod_add_mod, Nat.add_assoc]
    have hne : (cb.head + (1 + i)) % cb.maxSize ≠ cb.tail := by
      rw [htail_eq]
      intro hcontra
      have h0 : (cb.head + (1 + i)) % cb.maxSize
          = (cb.head + 0) % cb.maxSize := by
        rw [hcontra, Nat.add_zero, hhead_mod]
      have := add_mod_inj (1 + i) 0 (by omega) (by omega) h0
      omega
    rw [hidx, if_neg hne]
    show cb.data ((cb.head + (1 + i)) % cb.maxSize)
      = cb.data ((cb.head + (i + 1)) % cb.maxSize)
    rw [Nat.add_comm 1 i]
  · have hcond : (cb.head + 1 + k) % cb.maxSize = cb.tail := by
      rw [Nat.add_assoc, show 1 + k = cb.maxSize from by omega,
        Nat.add_mod_right, hhead_mod, htail_eq]
    simp [hcond]

/-- The state of a buffer of capacity `C ≥ 1` after any sequence of
appends: well-formed, `size = min N C`, and the snapshot holds
exactly the last `min N C` appended messages, oldest first. -/
theorem buildBuffer_spec (C : Nat) (hC : 1 ≤ C) (ms : List ChatMessage) :
    (buildBuffer C ms).WF ∧ (buildBuffer C ms).maxSize = C ∧
    (buildBuffer C ms).size = min ms.length C ∧
    (buildBuffer C ms).GetAll = ms.drop (ms.length - C) := by
  induction ms using List.reverseRecOn with
  | nil =>
      refine ⟨⟨by simpa [buildBuffer, NewCircularBuffer] using hC,
        by simp [buildBuffer, NewCircularBuffer]; omega,
        by simp [buildBuffer, NewCircularBuffer],
        by simp [buildBuffer, NewCircularBuffer]⟩,
        by simp [buildBuffer, NewCircularBuffer],
        by simp [buildBuffer, NewCircularBuffer],
        by simp [buildBuffer, NewCircularBuffer, getAll_eq]⟩
  | append_singleton ms m ih =>
      obtain ⟨ihwf, ihmax, ihsize, ihall⟩ := ih
      have hb : buildBuffer C (ms ++ [m]) = (buildBuffer C ms).Add m := by
        simp [buildBuffer, List.foldl_append]
      by_cases hlt : (buildBuffer C ms).size < (buildBuffer C ms).maxSize
      · have hlen : ms.length < C := by
          rw [ihsize, ihmax] at hlt
          omega
        refine ⟨hb ▸ wf_add _ _ ihwf, ?_, ?_, ?_⟩
        · rw [hb]
          simpa [CircularBuffer.Add, if_pos hlt] using ihmax
        · rw [hb]
          simp only [CircularBuffer.Add, if_pos hlt]
          simp only [List.length_append, List.length_singleton]
          rw [ihsize]
          omega
        · rw [hb, getAll_add_of_lt _ _ ihwf hlt, ihall]
          rw [show ms.length - C = 0 from by omega,
            show (ms ++ [m]).length - C = 0 from by
              simp only [List.length_append, List.length_singleton]; omega]
          simp
      · have hfull : (buildBuffer C ms).size = (buildBuffer C ms).maxSize := by
          have := ihwf.2.2.1
          omega
        have hlen : C ≤ ms.length := by
          rw [ihsize, ihmax] at hfull
          omega
        refine ⟨hb ▸ wf_add _ _ ihwf, ?_, ?_, ?_⟩
        · rw [hb]
          simpa [CircularBuffer.Add, if_neg hlt] using ihmax
        · rw [hb]
          simp only [CircularBuffer.Add, if_neg hlt]
          simp only [List.length_append, List.length_singleton]
          rw [ihsize]
          omega
        · rw [hb, getAll_add_of_full _ _ ihwf hfull, ihall, List.drop_drop,
            List.drop_append_of_le_length (by
              simp only [List.length_append, List.length_singleton] at *
              omega)]
          congr 2
          simp only [List.length_append, List.length_singleton]
          omega

/-- **C2.** For every capacity `C ≥ 1` and every finite sequence of
appends on a ring buffer of capacity `C`: after every prefix of the
sequence the buffer's size is between 0 and `C` (sizes are natural
numbers, so `0 ≤ size` is inherent), and after `N > C` appends the
snapshot contains exactly the last `C` appended messages, oldest first
in append order. -/
theorem ring_buffer_bound_and_last_C (C : Nat) (ms : List ChatMessage)
    (k : Nat) (hC : 1 ≤ C) :
    (buildBuffer C (ms.take k)).size ≤ C ∧
    (C < ms.length →
      (buildBuffer C ms).GetAll = ms.drop (ms.length - C) ∧
      (buildBuffer C ms).GetAll.length = C) := by
  refine ⟨?_, fun hN => ?_⟩
  · have := (buildBuffer_spec C hC (ms.take k)).2.2.1
    omega
  · obtain ⟨-, -, -, hall⟩ := buildBuffer_spec C hC ms
    refine ⟨hall, ?_⟩
    rw [hall, List.length_drop]
    omega

/-- Witness for C2: capacity 2, three appends; every prefix stays
within the bound and the final snapshot is the last two messages. -/
theorem ring_buffer_bound_and_last_C_witness :
    1 ≤ 2 ∧
    ((buildBuffer 2 ([c3Msg0, c3Msg, c3Msg0].take 1)).size ≤ 2 ∧
      (2 < [c3Msg0, c3Msg, c3Msg0].length →
        (buildBuffer 2 [c3Msg0, c3Msg, c3Msg0]).GetAll =
          [c3Msg0, c3Msg, c3Msg0].drop ([c3Msg0, c3Msg, c3Msg0].length - 2) ∧
        (buildBuffer 2 [c3Msg0, c3Msg, c3Msg0]).GetAll.length = 2)) :=
  ⟨by decide, ring_buffer_bound_and_last_C 2 [c3Msg0, c3Msg, c3Msg0] 1
    (by decide)⟩

/-- **C3 (counterexample).** On a concrete room whose capacity-1
buffer is full, `AddMessage` evicts the eldest but *increments*
`BytesUsed` by the new message's estimate (600 → 700); the claim's
predicted value with the average-message-size decrement would be
`600 + 100 - 500 = 200`. -/
theorem c3_no_bytes_decrement_on_eviction :
    c3Room.Messages.size = c3Room.Messages.maxSize ∧
    (c3Room.AddMessage c3Msg 5).Messages.GetAll = [c3Msg] ∧
    (c3Room.AddMessage c3Msg 5).BytesUsed = 700 ∧
    (c3Room.AddMessage c3Msg 5).BytesUsed ≠
      c3Room.BytesUsed + estimateSize c3Msg - 500 := by
  decide

/-- **C3 (amended).** `Room.addMessage` never fails (it is a total
state transformer); when the buffer is full at the time of the append
the eldest message is silently evicted; and `BytesUsed` changes only
by `+ estimateSize msg` — no decrement by the average-message-size
constant occurs on eviction (that decrement exists only in
`CleanupOldMessages`). -/
theorem addMessage_increments_bytes (cr : ChatRoom) (msg : ChatMessage)
    (now : Int) (h : cr.Messages.WF) :
    (cr.AddMessage msg now).BytesUsed = cr.BytesUsed + estimateSize msg ∧
    (cr.Messages.size = cr.Messages.maxSize →
      (cr.AddMessage msg now).Messages.GetAll =
        cr.Messages.GetAll.drop 1 ++ [msg]) := by
  refine ⟨rfl, fun hfull => ?_⟩
  exact getAll_add_of_full _ _ h hfull

/-- Witness for C3 (amended): the concrete full room. -/
theorem addMessage_increments_bytes_witness :
    c3Room.Messages.WF ∧
    ((c3Room.AddMessage c3Msg 5).BytesUsed =
        c3Room.BytesUsed + estimateSize c3Msg ∧
      (c3Room.Messages.size = c3Room.Messages.maxSize →
        (c3Room.AddMessage c3Msg 5).Messages.GetAll =
          c3Room.Messages.GetAll.drop 1 ++ [c3Msg])) :=
  ⟨by refine ⟨?_, ?_, ?_, ?_⟩ <;> decide,
    addMessage_increments_bytes c3Room c3Msg 5
      (by refine ⟨?_, ?_, ?_, ?_⟩ <;> decide)⟩

/-- **C8 (amended).** `GetRecent 0` returns the empty list (and so
does any `GetRecent` on an empty buffer); for `n ≥ size` the result
equals the `GetAll` snapshot, oldest first; but for `n < 0` on a
non-empty buffer the operation panics (modelled `none`) instead of
returning empty. -/
theorem getRecent_spec (cb : CircularBuffer) (n : Int) :
    cb.GetRecent 0 = some [] ∧
    ((cb.size : Int) ≤ n → cb.GetRecent n = some cb.GetAll) ∧
    (n < 0 → 0 < cb.size → cb.GetRecent n = none) := by
  unfold CircularBuffer.GetRecent
  refine ⟨?_, fun hle => ?_, fun hneg hpos => ?_⟩
  · by_cases hz : cb.size = 0
    · simp [hz]
    · have h0 : ¬ ((0 : Int) > (cb.size : Int)) := by
        simp only [not_lt]
        exact Int.natCast_nonneg _
      simp [hz, h0]
  · by_cases hz : cb.size = 0
    · simp [hz, getAll_eq]
    · simp only [if_neg hz]
      by_cases hgt : n > (cb.size : Int)
      · have hcnt : ¬ ((cb.size : Int) < 0) := by
          simp only [not_lt]
          exact Int.natCast_nonneg _
        simp only [if_pos hgt, if_neg hcnt, Int.toNat_natCast, Nat.sub_self,
          Nat.add_zero]
        rw [getAll_eq]
      · have hn : n = (cb.size : Int) := le_antisymm (not_lt.mp hgt) hle
        subst hn
        have hcnt : ¬ ((cb.size : Int) < 0) := by
          simp only [not_lt]
          exact Int.natCast_nonneg _
        simp only [if_neg hgt, if_neg hcnt, Int.toNat_natCast, Nat.sub_self,
          Nat.add_zero]
        rw [getAll_eq]
  · have hz : ¬ cb.size = 0 := by omega
    have hgt : ¬ (n > (cb.size : Int)) := by
      have : (0 : Int) ≤ (cb.size : Int) := Int.natCast_nonneg _
      omega
    simp [hz, hgt, hneg]

/-- Witness for C8 (amended): a one-element buffer with `n = 2 ≥
size`. -/
theorem getRecent_spec_witness :
    ((NewCircularBuffer 1).Add c3Msg0).GetRecent 0 = some [] ∧
    ((((NewCircularBuffer 1).Add c3Msg0).size : Int) ≤ 2 ∧
      ((NewCircularBuffer 1).Add c3Msg0).GetRecent 2 =
        some ((NewCircularBuffer 1).Add c3Msg0).GetAll) :=
  ⟨(getRecent_spec ((NewCircularBuffer 1).Add c3Msg0) 2).1,
    by decide,
    (getRecent_spec ((NewCircularBuffer 1).Add c3Msg0) 2).2.1 (by decide)⟩

end BroadcastChat
